import Mathlib

/-!
Shallow embedding of `nfldfs/games.py` (functions `find_games` and
`get_game_data`) and proofs about it.

Strings are modelled as `List Char`.  The external collaborators that the
repository keeps outside this file's source (`game_parameters_validator`
from `utils.py`, the constants `CURRENT_SEASON`, `CURRENT_SEASON_BASE_URL`
and `PREVIOUS_SEASON_BASE_URL` from `constants.py`, the network, and the
HTML parser) are modelled as parameters, following the spec's description
of them as external collaborators and injected configuration data.
-/

/-- Strings are modelled as lists of characters. -/
abbrev Str : Type := List Char

/-- Coerce a Lean string literal into the `List Char` model. -/
def str (s : String) : Str := s.data

/-- Split a character list at every occurrence of the separator `c`,
mirroring Python `str.split(c)`: `"a\nb\n".split('\n') = ["a","b",""]`. -/
def splitOnChar (c : Char) : Str → List Str
  | [] => [[]]
  | x :: xs =>
    let r := splitOnChar c xs
    if x = c then [] :: r
    else
      match r with
      | [] => [[x]]
      | h :: t => (x :: h) :: t

/-! ## Model of `re.search('game=(.*)&scsv=1', url)`

The pattern begins with the literal `game=`, captures greedily any
characters other than a newline, and then requires the literal `&scsv=1`.
`re.search` tries each start position from the left; at the first position
where the whole pattern matches, the greedy `(.*)` takes the longest
capture. -/

/-- The literal head of the pattern, `game=`. -/
def gameEqPat : Str := str "game="

/-- The literal tail of the pattern, `&scsv=1`. -/
def scsvPat : Str := str "&scsv=1"

/-- Whether taking `k` characters as the `(.*)` capture succeeds: the
capture may not contain a newline (`.` does not match `\n`) and the
remainder must start with the literal `&scsv=1`. -/
def okCap (rest : Str) (k : Nat) : Bool :=
  !((rest.take k).contains '\n') && scsvPat.isPrefixOf (rest.drop k)

/-- Greedy capture: the longest admissible `k` (candidates are tried from
`rest.length` down to `0`). -/
def greedyCap (rest : Str) : Option Str :=
  ((List.range (rest.length + 1)).reverse.find? (okCap rest)).map
    (fun k => rest.take k)

/-- Try to match the whole pattern starting exactly at the head of `l`. -/
def matchGameAt (l : Str) : Option Str :=
  if gameEqPat.isPrefixOf l then greedyCap (l.drop gameEqPat.length) else none

/-- Model of `re.search('game=(.*)&scsv=1', url)` followed by `.group(1)`:
the capture at the leftmost start position where the pattern matches, or
`none` when the pattern matches nowhere (in which case the Python code
raises `AttributeError` on the `None.group(1)` call). -/
def reSearchGame : Str → Option Str
  | [] => none
  | c :: rest =>
    match matchGameAt (c :: rest) with
    | some g => some g
    | none => reSearchGame rest

/-! ## Model of the pandas data frame produced by `get_game_data` -/

/-- Model of a pandas `DataFrame` as produced and consumed by
`get_game_data`: a named (or absent) row index, ordinary column names, and
rows holding an index cell plus one cell per ordinary column.  Cells are
kept as raw text fields. -/
structure DataFrame where
  indexName : Option Str
  columns : List Str
  rows : List (Option Str × List Str)
deriving DecidableEq

/-- The empty frame `pd.DataFrame()` that the accumulator starts from. -/
def emptyDF : DataFrame := ⟨none, [], []⟩

/-- The ten positional column names passed to `pd.read_csv` via `names=`. -/
def csvNames : List Str :=
  [str "week", str "year", str "gid", str "player_name", str "position",
   str "team_name", str "home_or_away", str "opponent_name", str "points",
   str "salary"]

/-- Tokenization failures `pd.read_csv` raises as `ParserError`: an
unterminated quoted field (C error "EOF inside string"), and a record with
more fields than the supplied `names`. -/
inductive ParseIssue where
  | eofInsideString : ParseIssue
  | excessFields : ParseIssue
deriving DecidableEq

/-- CSV tokenizer with the reader settings `pd.read_csv` uses here:
separator `sep`, quote character `"` starting a quoted field only at field
start, doubled `""` inside a quoted field standing for a literal quote,
quoted fields free to contain the separator and newlines.  Arguments after
the input are the quoted-field flag, the field accumulator, the record
accumulator, and the finished records.  An open quoted field at end of
input is the "EOF inside string" tokenization error. -/
def csvScan (sep : Char) : Str → Bool → Str → List Str → List (List Str) →
    Except ParseIssue (List (List Str))
  | [], true, _, _, _ => .error .eofInsideString
  | [], false, fld, row, rows =>
    if fld.isEmpty && row.isEmpty then .ok rows
    else .ok (rows ++ [row ++ [fld]])
  | '"' :: '"' :: cs, true, fld, row, rows =>
    csvScan sep cs true (fld ++ ['"']) row rows
  | '"' :: cs, true, fld, row, rows => csvScan sep cs false fld row rows
  | c :: cs, true, fld, row, rows => csvScan sep cs true (fld ++ [c]) row rows
  | c :: cs, false, fld, row, rows =>
    if c = '"' && fld.isEmpty then csvScan sep cs true fld row rows
    else if c = sep then csvScan sep cs false [] (row ++ [fld]) rows
    else if c = '\n' then csvScan sep cs false [] [] (rows ++ [row ++ [fld]])
    else csvScan sep cs false (fld ++ [c]) row rows

/-- Split an input into records of fields, or fail as `pd.read_csv`'s
tokenizer would. -/
def csvTokenize (sep : Char) (txt : Str) :
    Except ParseIssue (List (List Str)) :=
  csvScan sep txt false [] [] []

/-- Records the reader keeps: `skiprows=1` drops the first record, and
blank lines are skipped (`skip_blank_lines` default). -/
def csvRecords (allRecs : List (List Str)) : List (List Str) :=
  (allRecs.drop 1).filter (fun r => !(decide (r = [([] : Str)])))

/-- Model of
`pd.read_csv(block, sep=';', index_col=2, header=None, skiprows=1, names=csvNames)`:
tokenize the block (which can raise), skip the first record, drop blank
records, and raise the excess-fields `ParserError` when any record has
more fields than the ten names.  Records with fewer fields are padded on
the right with the empty field, which models pandas's `NaN` (an empty
unquoted field also reads as `NaN`).  Column position 2 of the schema is
promoted to the row index, the other nine positions become ordinary
columns. -/
def read_csv (txt : Str) : Except ParseIssue DataFrame :=
  match csvTokenize ';' txt with
  | .error e => .error e
  | .ok allRecs =>
    if (csvRecords allRecs).any
        (fun r => decide (csvNames.length < r.length)) then
      .error .excessFields
    else
      .ok { indexName := csvNames[2]?
          , columns := csvNames.eraseIdx 2
          , rows := (csvRecords allRecs).map (fun r =>
              let p := r ++ List.replicate (csvNames.length - r.length) ([] : Str)
              (p[2]?, p.eraseIdx 2)) }

/-- Model of `data[name] = v` for a fresh column name and a scalar `v`:
append the column and broadcast the value to every row. -/
def assignColumn (df : DataFrame) (name v : Str) : DataFrame :=
  { df with
    columns := df.columns ++ [name]
    rows := df.rows.map (fun r => (r.1, r.2 ++ [v])) }

/-- Model of `pd.concat(objs=[a, b])` as used in the loop: every
non-initial frame carries the same schema, so concatenation appends rows;
concatenation onto the initial empty `pd.DataFrame()` yields the other
frame unchanged. -/
def concatDF (a b : DataFrame) : DataFrame :=
  if a.columns.isEmpty && a.rows.isEmpty then b
  else { a with rows := a.rows ++ b.rows }

/-! ## Model of the fetch loop of `get_game_data` -/

/-- Outcome of `requests.get(url)` followed by HTML parsing: either a
document, of which the loop only inspects `soup.find("pre")` (modelled as
`preBlock`, the text of the first `pre` element when one exists), or a
raised network error. -/
inductive FetchOutcome where
  | ok : Option Str → FetchOutcome
  | fail : FetchOutcome
deriving DecidableEq

/-- The distinct ways one iteration of the loop can raise, tagged with the
URL being processed: the regex finding no match (`AttributeError` on
`.group(1)`), the network call raising, `soup.find("pre")` returning
`None` (`AttributeError` on `.text`), and `pd.read_csv` raising a
`ParserError` while tokenizing the block's rows. -/
inductive GameDataError where
  | malformedURL : Str → GameDataError
  | retrieval : Str → GameDataError
  | missingDataBlock : Str → GameDataError
  | parseFailure : Str → ParseIssue → GameDataError
deriving DecidableEq

/-- One iteration of the `for url in game_urls` loop body, up to and
including the `data['dfs_site'] = dfs_site_name` assignment.  The site tag
is extracted from the URL before any network retrieval is attempted, in
source order. -/
def processUrl (fetch : Str → FetchOutcome) (url : Str) :
    Except GameDataError DataFrame :=
  match reSearchGame url with
  | none => .error (.malformedURL url)
  | some dfs_site_name =>
    match fetch url with
    | .fail => .error (.retrieval url)
    | .ok pre =>
      match pre with
      | none => .error (.missingDataBlock url)
      | some txt =>
        match read_csv txt with
        | .error issue => .error (.parseFailure url issue)
        | .ok data => .ok (assignColumn data (str "dfs_site") dfs_site_name)

/-- The accumulation loop: process each URL in iteration order,
concatenating onto the running table; any raise aborts the whole call. -/
def get_game_data_loop (fetch : Str → FetchOutcome) :
    DataFrame → List Str → Except GameDataError DataFrame
  | acc, [] => .ok acc
  | acc, url :: rest =>
    match processUrl fetch url with
    | .error e => .error e
    | .ok data => get_game_data_loop fetch (concatDF acc data) rest

/-- Model of `get_game_data(game_urls)`: start from the empty frame and
run the loop over the URL collection.  The `time.sleep(0.25)` pacing has
no effect on the returned value and is not modelled. -/
def get_game_data (fetch : Str → FetchOutcome) (game_urls : List Str) :
    Except GameDataError DataFrame :=
  get_game_data_loop fetch emptyDF game_urls

/-- Decidable equality for `Except`, so concrete runs of the loop can be
checked by `decide`. -/
instance {ε α : Type} [DecidableEq ε] [DecidableEq α] :
    DecidableEq (Except ε α) := fun a b =>
  match a, b with
  | .error x, .error y =>
    if h : x = y then .isTrue (by rw [h]) else .isFalse (by simp [h])
  | .error _, .ok _ => .isFalse (by simp)
  | .ok _, .error _ => .isFalse (by simp)
  | .ok x, .ok y =>
    if h : x = y then .isTrue (by rw [h]) else .isFalse (by simp [h])

/-! ## Numeric coercion of cell text

`pd.read_csv` infers numeric types for the numeric columns; the claims
about concrete values are settled by parsing the stored cell text with the
decimal parsers below and interpreting the result as a rational number. -/

/-- Value of one decimal digit character. -/
def digitVal (c : Char) : Option Nat :=
  if c.isDigit then some (c.toNat - 48) else none

/-- Accumulating parse of a digit run. -/
def parseNatAux : Str → Nat → Option Nat
  | [], acc => some acc
  | c :: rest, acc =>
    match digitVal c with
    | none => none
    | some d => parseNatAux rest (acc * 10 + d)

/-- Parse a non-empty run of decimal digits as a natural number. -/
def parseNat (s : Str) : Option Nat :=
  if s.isEmpty then none else parseNatAux s 0

/-- Parse an unsigned decimal numeral, with at most one point, into the
triple (integer part, fractional part, number of fractional digits). -/
def parseDec (s : Str) : Option (Nat × Nat × Nat) :=
  match splitOnChar '.' s with
  | [w] => (parseNat w).map (fun n => (n, 0, 0))
  | [w, f] =>
    match parseNat w, parseNat f with
    | some a, some b => some (a, b, f.length)
    | _, _ => none
  | _ => none

/-- Rational value denoted by a `parseDec` triple. -/
def decVal (p : Nat × Nat × Nat) : ℚ :=
  (p.1 : ℚ) + (p.2.1 : ℚ) / (10 : ℚ) ^ p.2.2

/-- Cell of row `i` under the ordinary column called `name`. -/
def colValue (df : DataFrame) (i : Nat) (name : Str) : Option Str :=
  (df.rows[i]?).bind (fun r =>
    (df.columns.findIdx? (fun c => decide (c = name))).bind (fun j => r.2[j]?))

/-! ## Concrete fixtures used by the concrete theorems -/

/-- The example URL from the `find_games` docstring, whose query string
matches `game=dk&scsv=1`. -/
def url0 : Str :=
  str "http://rotoguru1.com/cgi-bin/fyday.pl?week=1&year=2014&game=dk&scsv=1"

/-- The one-data-row block from the spec's mocked-retrieval property. -/
def block0 : Str := str "header\n1;2014;100;Smith, John;QB;NE;home;NYJ;20.5;8000\n"

/-- Fetch oracle serving `block0` as the `pre` text of `url0` and failing
on every other URL. -/
def fetch0 : Str → FetchOutcome :=
  fun u => if u = url0 then .ok (some block0) else .fail

/-- A URL with no `game=...&scsv=1` shape. -/
def urlBad : Str := str "http://example.com/page"

/-- Fetch oracle for which every network call raises. -/
def fetchNone : Str → FetchOutcome := fun _ => .fail

/-- Fetch oracle returning, for every URL, a document with no `pre`
block. -/
def fetchNoPre : Str → FetchOutcome := fun _ => .ok none

/-- A block whose data record has eleven fields, one more than the ten
`names`, which makes `pd.read_csv` raise the excess-fields
`ParserError`. -/
def blockBad : Str := str "header\n1;2;3;4;5;6;7;8;9;10;11\n"

/-- Fetch oracle serving the malformed `blockBad` for every URL. -/
def fetchBadCsv : Str → FetchOutcome := fun _ => .ok (some blockBad)

/-- The frame that `get_game_data fetch0 [url0]` evaluates to. -/
def df0 : DataFrame :=
  { indexName := some (str "gid")
  , columns :=
      [str "week", str "year", str "player_name", str "position",
       str "team_name", str "home_or_away", str "opponent_name",
       str "points", str "salary", str "dfs_site"]
  , rows :=
      [(some (str "100"),
        [str "1", str "2014", str "Smith, John", str "QB", str "NE",
         str "home", str "NYJ", str "20.5", str "8000", str "dk"])] }

example : get_game_data fetch0 [url0] = .ok df0 := by decide

example : read_csv blockBad = .error .excessFields := by decide

example : read_csv (str "header\n\"unterminated\n") =
    .error .eofInsideString := by decide

example : csvTokenize ';' (str "a;\"b;c\";\"d\"\"e\"\nf\n") =
    .ok [[str "a", str "b;c", str "d\"e"], [str "f"]] := by decide

lemma loop_error_of_mem (f : Str → FetchOutcome) (url : Str)
    (e : GameDataError) (hpe : processUrl f url = .error e) :
    ∀ (urls : List Str) (acc : DataFrame), url ∈ urls →
      ∃ u, u ∈ urls ∧ ∃ e', processUrl f u = .error e' ∧
        get_game_data_loop f acc urls = .error e' := by
  intro urls
  induction urls with
  | nil => intro acc hmem; exact absurd hmem (List.not_mem_nil url)
  | cons u rest ih =>
    intro acc hmem
    cases hp : processUrl f u with
    | error e0 =>
      refine ⟨u, List.mem_cons_self u rest, e0, hp, ?_⟩
      simp only [get_game_data_loop, hp]
    | ok d =>
      have hrest : url ∈ rest := by
        rcases List.mem_cons.mp hmem with heq | hmem'
        · rw [heq] at hpe; rw [hpe] at hp; exact absurd hp (by simp)
        · exact hmem'
      obtain ⟨u', hu', e', hpe', hloop⟩ := ih (concatDF acc d) hrest
      refine ⟨u', List.mem_cons_of_mem u hu', e', hpe', ?_⟩
      simp only [get_game_data_loop, hp]
      exact hloop

/-! ## Claims C1 to C5 -/

/-- C2: on the mocked retrieval whose `pre` block is
`"header\n1;2014;100;Smith, John;QB;NE;home;NYJ;20.5;8000\n"` for
`url0`, `get_game_data` returns a table with exactly one row whose fields
are dfs_site "dk", week 1, year 2014, gid 100 (held as the row index),
points 20.5 and salary 8000, the first line being skipped as a non-data
header. -/
theorem get_game_data_mocked_single_row :
    get_game_data fetch0 [url0] = .ok df0 ∧
    df0.rows.length = 1 ∧
    colValue df0 0 (str "dfs_site") = some (str "dk") ∧
    (colValue df0 0 (str "week")).bind parseNat = some 1 ∧
    (colValue df0 0 (str "year")).bind parseNat = some 2014 ∧
    ((df0.rows[0]?).bind (fun r => r.1)).bind parseNat = some 100 ∧
    ((colValue df0 0 (str "points")).bind parseDec).map decVal =
      some (41 / 2 : ℚ) ∧
    ((colValue df0 0 (str "salary")).bind parseDec).map decVal =
      some (8000 : ℚ) := by
  refine ⟨by decide, by decide, by decide, by decide, by decide, by decide,
    ?_, ?_⟩
  · have h : (colValue df0 0 (str "points")).bind parseDec =
        some (20, 5, 1) := by decide
    have h2 : decVal (20, 5, 1) = 41 / 2 := by norm_num [decVal]
    rw [h, Option.map_some', h2]
  · have h : (colValue df0 0 (str "salary")).bind parseDec =
        some (8000, 0, 0) := by decide
    have h2 : decVal (8000, 0, 0) = 8000 := by norm_num [decVal]
    rw [h, Option.map_some', h2]

/-- C3: a URL on which the pattern `game=(.*)&scsv=1` finds no match makes
the loop iteration fail with the unmatched-pattern error whatever the
fetch oracle does (so no retrieval of that URL is needed or consulted),
and no call containing that URL ever returns a table. -/
theorem get_game_data_malformed_url (url : Str)
    (h : reSearchGame url = none) :
    (∀ fetch, processUrl fetch url = .error (.malformedURL url)) ∧
    (∀ f g, processUrl f url = processUrl g url) ∧
    (∀ fetch urls t, get_game_data fetch urls = .ok t → url ∉ urls) := by
  have hfail : ∀ fetch, processUrl fetch url =
      .error (.malformedURL url) := by
    intro fetch
    unfold processUrl
    rw [h]
  refine ⟨hfail, fun f g => by rw [hfail f, hfail g], ?_⟩
  intro fetch urls t hok hmem
  obtain ⟨u, hu, e', hpe', hloop⟩ :=
    loop_error_of_mem fetch url (.malformedURL url) (hfail fetch) urls
      emptyDF hmem
  unfold get_game_data at hok
  rw [hok] at hloop
  exact absurd hloop (by simp)

/-- Witness for `get_game_data_malformed_url` on a shapeless URL. -/
theorem get_game_data_malformed_url_witness :
    reSearchGame urlBad = none ∧
      processUrl fetchNone urlBad = .error (.malformedURL urlBad) :=
  ⟨by decide, (get_game_data_malformed_url urlBad (by decide)).1 fetchNone⟩

/-- C4: a URL whose retrieved document has no `pre` block makes the loop
iteration fail with the missing-data-block error, and no call containing
that URL ever returns a table (so no rows from that document reach the
result). -/
theorem get_game_data_missing_block (fetch : Str → FetchOutcome)
    (url site : Str) (h1 : reSearchGame url = some site)
    (h2 : fetch url = .ok none) :
    processUrl fetch url = .error (.missingDataBlock url) ∧
    (∀ urls t, get_game_data fetch urls = .ok t → url ∉ urls) := by
  have hfail : processUrl fetch url = .error (.missingDataBlock url) := by
    unfold processUrl
    rw [h1, h2]
  refine ⟨hfail, ?_⟩
  intro urls t hok hmem
  obtain ⟨u, hu, e', hpe', hloop⟩ :=
    loop_error_of_mem fetch url (.missingDataBlock url) hfail urls
      emptyDF hmem
  unfold get_game_data at hok
  rw [hok] at hloop
  exact absurd hloop (by simp)

/-- Witness for `get_game_data_missing_block`: the oracle returns a
document with no `pre` block for the well-shaped `url0`. -/
theorem get_game_data_missing_block_witness :
    (reSearchGame url0 = some (str "dk") ∧ fetchNoPre url0 = .ok none) ∧
      processUrl fetchNoPre url0 = .error (.missingDataBlock url0) :=
  ⟨⟨by decide, rfl⟩,
    (get_game_data_missing_block fetchNoPre url0 (str "dk") (by decide)
      rfl).1⟩

/-- C5: the call is all-or-nothing — if processing any URL of the
collection fails (site-tag extraction, retrieval, block location, or row
parsing, the four ways `processUrl` can error), the whole call returns the
error propagated from some failing URL, and no table is returned. -/
theorem get_game_data_all_or_nothing (fetch : Str → FetchOutcome)
    (urls : List Str) (url : Str) (e : GameDataError) (h1 : url ∈ urls)
    (h2 : processUrl fetch url = .error e) :
    (∃ u, u ∈ urls ∧ ∃ e', processUrl fetch u = .error e' ∧
       get_game_data fetch urls = .error e') ∧
    (∀ t, get_game_data fetch urls ≠ .ok t) := by
  obtain ⟨u, hu, e', hpe', hloop⟩ :=
    loop_error_of_mem fetch url e h2 urls emptyDF h1
  have hmain : get_game_data fetch urls = .error e' := hloop
  refine ⟨⟨u, hu, e', hpe', hmain⟩, ?_⟩
  intro t ht
  rw [hmain] at ht
  exact absurd ht (by simp)

/-- Witness for `get_game_data_all_or_nothing`: a row-parsing failure (a
record with eleven fields) on the only URL aborts the call. -/
theorem get_game_data_all_or_nothing_witness :
    (url0 ∈ [url0] ∧
      processUrl fetchBadCsv url0 =
        .error (.parseFailure url0 .excessFields)) ∧
    ((∃ u, u ∈ [url0] ∧ ∃ e', processUrl fetchBadCsv u = .error e' ∧
        get_game_data fetchBadCsv [url0] = .error e') ∧
      (∀ t, get_game_data fetchBadCsv [url0] ≠ .ok t)) :=
  ⟨⟨List.mem_cons_self url0 [], by decide⟩,
    get_game_data_all_or_nothing fetchBadCsv [url0] url0
      (.parseFailure url0 .excessFields)
      (List.mem_cons_self url0 []) (by decide)⟩

/-! ## Model of `find_games`

`find_games` lives in `games.py`; its collaborators
`game_parameters_validator` (from `utils.py`) and the constants
`CURRENT_SEASON`, `CURRENT_SEASON_BASE_URL`, `PREVIOUS_SEASON_BASE_URL`
(from `constants.py`) are external to the function.  Following the spec's
description of them as an external validator collaborator and injected
configuration data, they are parameters here. -/

/-- Model of `x or d` for a Python `int`-or-`None` argument: `None` and
`0` are falsy and give the default, every other integer gives itself. -/
def pyOr (x : Option Int) (d : Int) : Int :=
  match x with
  | none => d
  | some v => if v = 0 then d else v

/-- Model of `[*range(a, b + 1)]`, the inclusive integer range. -/
def intRange (a b : Int) : List Int :=
  (List.range (b + 1 - a).toNat).map (fun (i : Nat) => a + (i : Int))

/-- Model of `itertools.product(xs, ys)`. -/
def listProd {α β : Type} (xs : List α) (ys : List β) : List (α × β) :=
  xs.flatMap (fun x => ys.map (fun y => (x, y)))

/-- Signature of `game_parameters_validator(dfs_site, season_from,
season_to, week_from, week_to)`, modelled as a predicate: `true` means the
validator returns normally, `false` that it raises. -/
abbrev Validator : Type := Str → Int → Int → Int → Int → Bool

/-- Configuration constants read by `find_games`: the current season and
the two URL templates, the current-season one taking (week, site) and the
historical one taking (week, season, site). -/
structure Config where
  CURRENT_SEASON : Int
  CURRENT_SEASON_BASE_URL : Int → Str → Str
  PREVIOUS_SEASON_BASE_URL : Int → Int → Str → Str

/-- Model of `find_games(dfs_site, season_from, week_from, season_to=None,
week_to=None)`: resolve the `to` bounds by Python truthiness, consult the
validator, expand both inclusive ranges, and return the union of the
current-season URL set (all weeks, if the current season is in range) and
the historical URL set (one per (week, season) pair with season not the
current season).  `none` models a raised validator error. -/
def find_games (cfg : Config) (validator : Validator) (dfs_site : Str)
    (season_from week_from : Int) (season_to week_to : Option Int) :
    Option (Finset Str) :=
  let season_to_range := pyOr season_to season_from
  let week_to_range := pyOr week_to week_from
  if validator dfs_site season_from season_to_range week_from week_to_range then
    let seasons := intRange season_from season_to_range
    let weeks := intRange week_from week_to_range
    let include_current_season : Bool := decide (cfg.CURRENT_SEASON ∈ seasons)
    let current_season_urls :=
      ((weeks.filter (fun _ => include_current_season)).map
        (fun w => cfg.CURRENT_SEASON_BASE_URL w dfs_site)).toFinset
    let previous_season_urls :=
      (((listProd weeks seasons).filter
          (fun p => decide (p.2 ≠ cfg.CURRENT_SEASON))).map
        (fun p => cfg.PREVIOUS_SEASON_BASE_URL p.1 p.2 dfs_site)).toFinset
    some (current_season_urls ∪ previous_season_urls)
  else none

/-- Decimal rendering of an integer, as Python `str.format` would insert
it into a URL template. -/
def intChars (i : Int) : Str :=
  if i < 0 then '-' :: Nat.toDigits 10 (-i).toNat
  else Nat.toDigits 10 i.toNat

/-- Modelled from the spec: the configuration constants of
`constants.py`, which is not part of the available source.  The historical
template is reconstructed from the docstring example URL
`http://rotoguru1.com/cgi-bin/fyday.pl?week=1&year=2014&game=dk&scsv=1`;
the current-season template takes only (week, site) per the spec and is
given the same shape without the year parameter; the current season is
taken to be 2025. -/
def cfg0 : Config :=
  { CURRENT_SEASON := 2025
  , CURRENT_SEASON_BASE_URL := fun w site =>
      str "http://rotoguru1.com/cgi-bin/fyday.pl?week=" ++ intChars w ++
        str "&game=" ++ site ++ str "&scsv=1"
  , PREVIOUS_SEASON_BASE_URL := fun w s site =>
      str "http://rotoguru1.com/cgi-bin/fyday.pl?week=" ++ intChars w ++
        str "&year=" ++ intChars s ++ str "&game=" ++ site ++ str "&scsv=1" }

/-- Configuration whose two templates are disjoint by their head
character, used to exercise the template-provenance claims. -/
def cfgW : Config :=
  { CURRENT_SEASON := 2025
  , CURRENT_SEASON_BASE_URL := fun w site => 'c' :: (intChars w ++ site)
  , PREVIOUS_SEASON_BASE_URL := fun w s site =>
      'p' :: (intChars w ++ intChars s ++ site) }

/-- Validator that accepts every parameter tuple. -/
def vTrue : Validator := fun _ _ _ _ _ => true

lemma intRange_self (a : Int) : intRange a a = [a] := by
  unfold intRange
  rw [show a + 1 - a = 1 from by omega,
    show (1 : Int).toNat = 1 from rfl,
    show List.range 1 = [0] from rfl]
  simp

lemma mem_intRange {x a b : Int} : x ∈ intRange a b ↔ a ≤ x ∧ x ≤ b := by
  unfold intRange
  simp only [List.mem_map, List.mem_range]
  constructor
  · rintro ⟨i, hi, rfl⟩
    omega
  · rintro ⟨h1, h2⟩
    exact ⟨(x - a).toNat, by omega, by omega⟩

lemma intRange_eq_nil {a b : Int} (h : b < a) : intRange a b = [] := by
  unfold intRange
  rw [show (b + 1 - a).toNat = 0 from by omega]
  rfl

lemma mem_listProd {α β : Type} {xs : List α} {ys : List β} {p : α × β} :
    p ∈ listProd xs ys ↔ p.1 ∈ xs ∧ p.2 ∈ ys := by
  unfold listProd
  cases p with
  | mk x y => simp

example : intRange 2014 2015 = [2014, 2015] := by decide

example : listProd (intRange 1 2) (intRange 2014 2014) =
    [(1, 2014), (2, 2014)] := by decide

lemma toFinset_map_list {α β : Type} [DecidableEq α] [DecidableEq β]
    (f : α → β) (l : List α) : (l.map f).toFinset = l.toFinset.image f := by
  ext b
  simp

lemma filter_eq_nil_of_false {α : Type} (p : α → Bool) (l : List α)
    (h : ∀ a ∈ l, p a = false) : l.filter p = [] := by
  induction l with
  | nil => rfl
  | cons x xs ih =>
    simp only [List.filter_cons, h x (List.mem_cons_self x xs)]
    exact ih (fun a ha => h a (List.mem_cons_of_mem x ha))

lemma find_games_eq_of_validator (cfg : Config) (v : Validator) (site : Str)
    (sf wf : Int) (st wt : Option Int)
    (hv : v site sf (pyOr st sf) wf (pyOr wt wf) = true) :
    find_games cfg v site sf wf st wt =
      some ((((intRange wf (pyOr wt wf)).filter (fun _ =>
            decide (cfg.CURRENT_SEASON ∈ intRange sf (pyOr st sf)))).map
          (fun w => cfg.CURRENT_SEASON_BASE_URL w site)).toFinset ∪
        (((listProd (intRange wf (pyOr wt wf))
              (intRange sf (pyOr st sf))).filter
            (fun p => decide (p.2 ≠ cfg.CURRENT_SEASON))).map
          (fun p => cfg.PREVIOUS_SEASON_BASE_URL p.1 p.2 site)).toFinset) := by
  unfold find_games
  simp only [hv, if_true]

/-! ## Claims C6 to C10 -/

/-- C6: for every valid call with both `to` bounds absent, the returned
set is a singleton — the current-season URL for `week_from` when
`season_from` is the configured current season, the historical URL
otherwise. -/
theorem find_games_single (cfg : Config) (v : Validator) (site : Str)
    (sf wf : Int) (hv : v site sf sf wf wf = true) :
    ∃ S, find_games cfg v site sf wf none none = some S ∧ S.card = 1 ∧
      S = {(if sf = cfg.CURRENT_SEASON
            then cfg.CURRENT_SEASON_BASE_URL wf site
            else cfg.PREVIOUS_SEASON_BASE_URL wf sf site)} := by
  have h := find_games_eq_of_validator cfg v site sf wf none none hv
  simp only [pyOr] at h
  by_cases hc : sf = cfg.CURRENT_SEASON
  · have h1 : (intRange wf wf).filter (fun _ =>
        decide (cfg.CURRENT_SEASON ∈ intRange sf sf)) = [wf] := by
      simp [intRange_self, hc]
    have h2 : (listProd (intRange wf wf) (intRange sf sf)).filter
        (fun p => decide (p.2 ≠ cfg.CURRENT_SEASON)) = [] := by
      simp [intRange_self, listProd, hc]
    rw [h1, h2] at h
    refine ⟨_, h, ?_, ?_⟩
    · simp
    · simp [hc]
  · have h1 : (intRange wf wf).filter (fun _ =>
        decide (cfg.CURRENT_SEASON ∈ intRange sf sf)) = [] := by
      simp [intRange_self, Ne.symm hc]
    have h2 : (listProd (intRange wf wf) (intRange sf sf)).filter
        (fun p => decide (p.2 ≠ cfg.CURRENT_SEASON)) = [(wf, sf)] := by
      simp [intRange_self, listProd, hc]
    rw [h1, h2] at h
    refine ⟨_, h, ?_, ?_⟩
    · simp
    · simp [hc]

/-- Witness for `find_games_single` on the docstring example call. -/
theorem find_games_single_witness :
    vTrue (str "dk") 2014 2014 1 1 = true ∧
      (∃ S, find_games cfg0 vTrue (str "dk") 2014 1 none none = some S ∧
        S.card = 1 ∧
        S = {(if (2014 : Int) = cfg0.CURRENT_SEASON
              then cfg0.CURRENT_SEASON_BASE_URL 1 (str "dk")
              else cfg0.PREVIOUS_SEASON_BASE_URL 1 2014 (str "dk"))}) :=
  ⟨rfl, find_games_single cfg0 vTrue (str "dk") 2014 1 rfl⟩

/-- C7: for every valid call whose expanded season sequence misses the
configured current season, the returned set is exactly the historical
URLs, one per (week, season) pair of the cartesian product, and — when the
two templates never collide — contains no current-season-template URL. -/
theorem find_games_no_current (cfg : Config) (v : Validator) (site : Str)
    (sf wf : Int) (st wt : Option Int)
    (hv : v site sf (pyOr st sf) wf (pyOr wt wf) = true)
    (hcur : cfg.CURRENT_SEASON ∉ intRange sf (pyOr st sf)) :
    ∃ S, find_games cfg v site sf wf st wt = some S ∧
      (∀ u, u ∈ S ↔ ∃ w, w ∈ intRange wf (pyOr wt wf) ∧
        ∃ s, s ∈ intRange sf (pyOr st sf) ∧
          u = cfg.PREVIOUS_SEASON_BASE_URL w s site) ∧
      ((∀ w w' s, cfg.CURRENT_SEASON_BASE_URL w site ≠
          cfg.PREVIOUS_SEASON_BASE_URL w' s site) →
        ∀ w, cfg.CURRENT_SEASON_BASE_URL w site ∉ S) := by
  have h := find_games_eq_of_validator cfg v site sf wf st wt hv
  have h1 : (intRange wf (pyOr wt wf)).filter (fun _ =>
      decide (cfg.CURRENT_SEASON ∈ intRange sf (pyOr st sf))) = [] := by
    apply filter_eq_nil_of_false
    intro a _
    simp [hcur]
  have h2 : (listProd (intRange wf (pyOr wt wf))
      (intRange sf (pyOr st sf))).filter
      (fun p => decide (p.2 ≠ cfg.CURRENT_SEASON)) =
      listProd (intRange wf (pyOr wt wf)) (intRange sf (pyOr st sf)) := by
    apply List.filter_eq_self.mpr
    intro p hp
    have hmem := (mem_listProd.mp hp).2
    simp only [decide_eq_true_eq]
    intro heq
    exact hcur (heq ▸ hmem)
  rw [h1, h2] at h
  refine ⟨_, h, ?_, ?_⟩
  · intro u
    simp only [List.map_nil, List.toFinset_nil, Finset.empty_union,
      List.mem_toFinset, List.mem_map]
    constructor
    · rintro ⟨p, hp, rfl⟩
      obtain ⟨hw', hs⟩ := mem_listProd.mp hp
      exact ⟨p.1, hw', p.2, hs, rfl⟩
    · rintro ⟨w, hw', s, hs, rfl⟩
      exact ⟨(w, s), mem_listProd.mpr ⟨hw', hs⟩, rfl⟩
  · intro hdisj w hmem
    simp only [List.map_nil, List.toFinset_nil, Finset.empty_union,
      List.mem_toFinset, List.mem_map] at hmem
    obtain ⟨p, _, heq⟩ := hmem
    exact hdisj w p.1 p.2 heq.symm

/-- Witness for `find_games_no_current`: seasons 2014..2015 with current
season 2025, weeks 1..2. -/
theorem find_games_no_current_witness :
    (vTrue (str "dk") 2014 (pyOr (some 2015) 2014) 1 (pyOr (some 2) 1)
        = true ∧
      cfgW.CURRENT_SEASON ∉ intRange 2014 (pyOr (some 2015) 2014)) ∧
    (∃ S, find_games cfgW vTrue (str "dk") 2014 1 (some 2015) (some 2) =
        some S ∧
      (∀ u, u ∈ S ↔ ∃ w, w ∈ intRange 1 (pyOr (some 2) 1) ∧
        ∃ s, s ∈ intRange 2014 (pyOr (some 2015) 2014) ∧
          u = cfgW.PREVIOUS_SEASON_BASE_URL w s (str "dk")) ∧
      ((∀ w w' s, cfgW.CURRENT_SEASON_BASE_URL w (str "dk") ≠
          cfgW.PREVIOUS_SEASON_BASE_URL w' s (str "dk")) →
        ∀ w, cfgW.CURRENT_SEASON_BASE_URL w (str "dk") ∉ S)) :=
  ⟨⟨rfl, by decide⟩,
    find_games_no_current cfgW vTrue (str "dk") 2014 1 (some 2015) (some 2)
      rfl (by decide)⟩

lemma find_games_only_current (cfg : Config) (v : Validator) (site : Str)
    (sf wf : Int) (st wt : Option Int)
    (hv : v site sf (pyOr st sf) wf (pyOr wt wf) = true)
    (hsf : sf = cfg.CURRENT_SEASON)
    (hst : pyOr st sf = cfg.CURRENT_SEASON) :
    find_games cfg v site sf wf st wt =
      some ((intRange wf (pyOr wt wf)).map
        (fun w => cfg.CURRENT_SEASON_BASE_URL w site)).toFinset := by
  have h := find_games_eq_of_validator cfg v site sf wf st wt hv
  have hseason : intRange sf (pyOr st sf) = [cfg.CURRENT_SEASON] := by
    rw [hst, hsf, intRange_self]
  simp only [hseason] at h
  have h1 : (intRange wf (pyOr wt wf)).filter (fun _ =>
      decide (cfg.CURRENT_SEASON ∈ [cfg.CURRENT_SEASON])) =
      intRange wf (pyOr wt wf) := by
    apply List.filter_eq_self.mpr
    intro a _
    simp
  have h2 : (listProd (intRange wf (pyOr wt wf))
      [cfg.CURRENT_SEASON]).filter
      (fun p => decide (p.2 ≠ cfg.CURRENT_SEASON)) = [] := by
    apply filter_eq_nil_of_false
    intro p hp
    have hmem := (mem_listProd.mp hp).2
    simp only [List.mem_singleton] at hmem
    simp [hmem]
  rw [h1, h2] at h
  simpa using h

/-- C8: for every valid call whose expanded season sequence holds only the
configured current season, the returned set is the current-season URL of
each requested week, its size (under injectivity of the current-season
template in the week) is the number of distinct requested weeks, and the
set is the same for any other season bounds that also resolve to the
current season only. -/
theorem find_games_current_card (cfg : Config) (v : Validator) (site : Str)
    (sf wf : Int) (st wt : Option Int)
    (hv : v site sf (pyOr st sf) wf (pyOr wt wf) = true)
    (hsf : sf = cfg.CURRENT_SEASON)
    (hst : pyOr st sf = cfg.CURRENT_SEASON)
    (hinj : ∀ w ∈ intRange wf (pyOr wt wf), ∀ w' ∈ intRange wf (pyOr wt wf),
      cfg.CURRENT_SEASON_BASE_URL w site = cfg.CURRENT_SEASON_BASE_URL w' site →
        w = w') :
    ∃ S, find_games cfg v site sf wf st wt = some S ∧
      S = ((intRange wf (pyOr wt wf)).map
        (fun w => cfg.CURRENT_SEASON_BASE_URL w site)).toFinset ∧
      S.card = (intRange wf (pyOr wt wf)).toFinset.card ∧
      (∀ sf' st', v site sf' (pyOr st' sf') wf (pyOr wt wf) = true →
        sf' = cfg.CURRENT_SEASON → pyOr st' sf' = cfg.CURRENT_SEASON →
        find_games cfg v site sf' wf st' wt = some S) := by
  refine ⟨_, find_games_only_current cfg v site sf wf st wt hv hsf hst, rfl,
    ?_, ?_⟩
  · rw [toFinset_map_list]
    apply Finset.card_image_of_injOn
    intro a ha b hb heq
    exact hinj a (by simpa using ha) b (by simpa using hb) heq
  · intro sf' st' hv' hsf' hst'
    exact find_games_only_current cfg v site sf' wf st' wt hv' hsf' hst'

/-- Witness for `find_games_current_card`: the current season 2025 with
weeks 1..2 under the reconstructed configuration. -/
theorem find_games_current_card_witness :
    (vTrue (str "dk") 2025 (pyOr none 2025) 1 (pyOr (some 2) 1) = true ∧
      (2025 : Int) = cfg0.CURRENT_SEASON ∧
      pyOr none 2025 = cfg0.CURRENT_SEASON ∧
      (∀ w ∈ intRange 1 (pyOr (some 2) 1), ∀ w' ∈ intRange 1 (pyOr (some 2) 1),
        cfg0.CURRENT_SEASON_BASE_URL w (str "dk") =
          cfg0.CURRENT_SEASON_BASE_URL w' (str "dk") → w = w')) ∧
    (∃ S, find_games cfg0 vTrue (str "dk") 2025 1 none (some 2) = some S ∧
      S = ((intRange 1 (pyOr (some 2) 1)).map
        (fun w => cfg0.CURRENT_SEASON_BASE_URL w (str "dk"))).toFinset ∧
      S.card = (intRange 1 (pyOr (some 2) 1)).toFinset.card ∧
      (∀ sf' st', vTrue (str "dk") sf' (pyOr st' sf') 1 (pyOr (some 2) 1)
          = true →
        sf' = cfg0.CURRENT_SEASON → pyOr st' sf' = cfg0.CURRENT_SEASON →
        find_games cfg0 vTrue (str "dk") sf' 1 st' (some 2) = some S)) :=
  ⟨⟨rfl, rfl, rfl, by decide⟩,
    find_games_current_card cfg0 vTrue (str "dk") 2025 1 none (some 2)
      rfl rfl rfl (by decide)⟩

/-- C9: a week range that is inverted after defaulting expands to the
empty sequence, so an accepted call returns the empty URL set rather than
raising. -/
theorem find_games_inverted (cfg : Config) (v : Validator) (site : Str)
    (sf wf : Int) (st wt : Option Int)
    (hv : v site sf (pyOr st sf) wf (pyOr wt wf) = true)
    (hw : pyOr wt wf < wf) :
    find_games cfg v site sf wf st wt = some ∅ := by
  have h := find_games_eq_of_validator cfg v site sf wf st wt hv
  rw [intRange_eq_nil hw] at h
  simpa [listProd] using h

/-- Witness for `find_games_inverted` with `week_to = -1 < week_from = 1`. -/
theorem find_games_inverted_witness :
    (vTrue (str "dk") 2014 (pyOr none 2014) 1 (pyOr (some (-1)) 1) = true ∧
      pyOr (some (-1)) 1 < 1) ∧
    find_games cfg0 vTrue (str "dk") 2014 1 none (some (-1)) = some ∅ :=
  ⟨⟨rfl, by decide⟩,
    find_games_inverted cfg0 vTrue (str "dk") 2014 1 none (some (-1)) rfl
      (by decide)⟩

/-- C10: passing `season_to=0` and `week_to=0` is the same call as
omitting both bounds, because the Python truthiness test `x or default`
replaces a zero bound by the default. -/
theorem find_games_zero_bounds (cfg : Config) (v : Validator) (site : Str)
    (sf wf : Int) :
    find_games cfg v site sf wf (some 0) (some 0) =
      find_games cfg v site sf wf none none := rfl
